import Mathlib

/-!
Verification of the dynamic-DNS reconciliation agent `change_ip.py`.

The development shallowly embeds the program's pure logic and its
effectful control flow (the reconciliation loop of `main`) in Lean:

* Python strings are modelled as Lean `String` / `List Char` restricted to
  the ASCII fragment exercised by the program (`re`'s `\d` is modelled as
  the ASCII digits, and `int`'s whitespace stripping by the six ASCII
  whitespace characters Python strips).
* Network I/O is modelled by environments that fix the outcome of each
  external call (endpoint responses, Cloudflare fetch/update outcomes,
  Telegram delivery outcomes); a run of the loop body then becomes a pure
  function from the environment and the local state `last_ip` to the new
  state together with a trace of observable events.
* Python exceptions are modelled as explicit outcome constructors
  (`EndpointOutcome.err`, `AttemptOutcome.fetchErr`, `UpdResult.exn`, ...);
  `try`/`except` blocks become the corresponding case analyses.
-/

namespace ChangeIp

/-! ### Python string primitives -/

/-- The six ASCII whitespace characters stripped by Python's `str.strip()`
and by `int()` (space, tab, newline, carriage return, vertical tab,
form feed). -/
def isPySpace (c : Char) : Bool :=
  c = ' ' || c = '\t' || c = '\n' || c = '\r' || c = '\x0b' || c = '\x0c'

/-- Python `str.strip()` on a character list: remove leading and trailing
whitespace. -/
def pyStripChars (l : List Char) : List Char :=
  ((l.dropWhile isPySpace).reverse.dropWhile isPySpace).reverse

/-- Python `str.strip()` on strings, as used on the IP-discovery response
bodies (`r.decode("utf-8").strip()`). -/
def pyStrip (s : String) : String :=
  ⟨pyStripChars s.data⟩

/-- Numeric value of one ASCII digit. -/
def digitVal (c : Char) : Nat := c.toNat - '0'.toNat

/-- Value of a digit run, most significant digit first (underscores, legal
in Python integer literals, are assumed already removed). -/
def digitsToNat (l : List Char) : Nat :=
  l.foldl (fun acc c => 10 * acc + digitVal c) 0

/-- Tail of Python's digit grammar for `int(str)`: digits with single
underscores allowed only between digits. `digitsUndTail rest` accepts the
part after the (already checked) first digit. -/
def digitsUndTail : List Char → Bool
  | [] => true
  | [c] => if c = '_' then false else c.isDigit
  | c :: c2 :: rest =>
    if c = '_' then c2.isDigit && digitsUndTail rest
    else c.isDigit && digitsUndTail (c2 :: rest)

/-- Python's digit grammar for `int(str)` after stripping and sign: a
nonempty digit run, with single underscores allowed between digits. -/
def pyDigitsUnd : List Char → Bool
  | [] => false
  | c :: rest => c.isDigit && digitsUndTail rest

/-- Remove the underscores of a Python integer literal. -/
def stripUnderscores (l : List Char) : List Char := l.filter (· ≠ '_')

/-- Python `int(str)` after whitespace stripping: an optional sign followed
by the digit grammar. -/
def pyIntCore (t : List Char) : Option Int :=
  match t with
  | [] => none
  | c :: rest =>
    if c = '+' then
      if pyDigitsUnd rest then some (digitsToNat (stripUnderscores rest) : Nat) else none
    else if c = '-' then
      if pyDigitsUnd rest then some (-(digitsToNat (stripUnderscores rest) : Nat)) else none
    else
      if pyDigitsUnd t then some (digitsToNat (stripUnderscores t) : Nat) else none

/-- Python `int(str)`: strip whitespace, optional sign, digit run; `none`
models the `ValueError` raised on any other input. -/
def pyIntOfChars (l : List Char) : Option Int :=
  pyIntCore (pyStripChars l)

/-- Python `str.split(".")` on a character list: `splitOnDot [] = [[]]`,
and each `'.'` starts a new (possibly empty) part, as in Python. -/
def splitOnDot : List Char → List (List Char)
  | [] => [[]]
  | c :: rest =>
    if c = '.' then [] :: splitOnDot rest
    else
      match splitOnDot rest with
      | [] => [[c]]
      | p :: ps => (c :: p) :: ps

/-- Append a character to the last part of a nonempty list of parts (on
the empty list: one part holding the character).  `splitOnDot (t ++ [c])`
for `c ≠ '.'` is `appendToLast c (splitOnDot t)`. -/
def appendToLast (c : Char) : List (List Char) → List (List Char)
  | [] => [[c]]
  | [p] => [p ++ [c]]
  | p :: q :: ps => p :: appendToLast c (q :: ps)

/-! ### The validator `is_valid_public_ipv4` -/

/-- One group `\d{1,3}` of the source regex: one to three ASCII digits. -/
def octetShape (p : List Char) : Bool :=
  !p.isEmpty && decide (p.length ≤ 3) && p.all Char.isDigit

/-- The core of the source regex `^(\d{1,3}\.){3}\d{1,3}$` matched against
an entire string: splitting on `'.'` yields exactly four groups of one to
three digits.  (Since `\d` never matches `'.'`, the greedy repetition of
the regex matches a string exactly when this split-based characterisation
holds.) -/
def reIpShapeCore (l : List Char) : Bool :=
  match splitOnDot l with
  | [a, b, c, d] => octetShape a && octetShape b && octetShape c && octetShape d
  | _ => false

/-- Python `re.match(r"^(\d{1,3}\.){3}\d{1,3}$", ip)`: Python's `$` matches at the
end of the string or just before a newline that ends the string, so the
regex also accepts a well-shaped dotted quad followed by one final `'\n'`. -/
def reIpShape (l : List Char) : Bool :=
  reIpShapeCore l ||
    (match l.getLast? with
     | some c => c = '\n' && reIpShapeCore l.dropLast
     | none => false)

/-- Conversion `[int(o) for o in octets]` wrapped in `try`/`except ValueError`:
`none` models the exception. -/
def pyIntList : List (List Char) → Option (List Int)
  | [] => some []
  | p :: ps =>
    match pyIntOfChars p, pyIntList ps with
    | some v, some vs => some (v :: vs)
    | _, _ => none

/-- The private/loopback exclusion of the source: 10.0.0.0/8, 127.0.0.0/8,
172.16.0.0/12, 192.168.0.0/16, decided from the first two octets. -/
def privateOrLoopback (o1 o2 : Int) : Bool :=
  decide (o1 = 10) || decide (o1 = 127) ||
    (decide (o1 = 172) && decide (16 ≤ o2) && decide (o2 ≤ 31)) ||
    (decide (o1 = 192) && decide (o2 = 168))

/-- The part of `is_valid_public_ipv4` after the regex guard: split on
dots, `int` conversion with `try`/`except`, numeric range check,
private/loopback exclusion — line by line from the source (the `_`
fallthrough of the final match models the `ValueError` a 4-way unpacking
of a differently sized list would raise, unreachable behind the regex). -/
def ipv4_after_regex (l : List Char) : Bool :=
  match pyIntList (splitOnDot l) with
  | none => false
  | some os =>
    if os.any (fun o => decide (o < 0) || decide (255 < o)) then false
    else
      match os with
      | [o1, o2, _, _] => !privateOrLoopback o1 o2
      | _ => false

/-- Body of `is_valid_public_ipv4` on the character list of its argument:
regex check, then the conversion/range/private pipeline. -/
def is_valid_public_ipv4_chars (l : List Char) : Bool :=
  if !reIpShape l then false
  else ipv4_after_regex l

/-- Function `is_valid_public_ipv4` from the source (lines 57–82). -/
def is_valid_public_ipv4 (ip : String) : Bool :=
  is_valid_public_ipv4_chars ip.data

/-! ### The validator as the spec words it

The spec (§4.1a) describes the validator as: true exactly for strings
matching four dot-separated integers each in [0,255] (written as one to
three digit groups, the shape the dotted-quad regex fixes) that are outside
the four private/loopback ranges.  These definitions follow the spec's
words, to be compared with the source function above. -/

/-- One octet as the spec words it: a one-to-three digit group whose value
is at most 255. -/
def specOctet (p : List Char) : Bool :=
  octetShape p && decide (digitsToNat p ≤ 255)

/-- A string matching four dot-separated in-range octets outside the four
private/loopback ranges, on character lists. -/
def spec_public_ipv4_core (l : List Char) : Bool :=
  match splitOnDot l with
  | [a, b, c, d] =>
    specOctet a && specOctet b && specOctet c && specOctet d &&
      !privateOrLoopback (digitsToNat a) (digitsToNat b)
  | _ => false

/-- The validator exactly as the spec claims it behaves. -/
def spec_public_ipv4 (ip : String) : Bool :=
  spec_public_ipv4_core ip.data

/-- The amended description of the validator: as `spec_public_ipv4`, except
that one trailing newline is additionally tolerated (an artefact of
Python's `$` and of `int`'s whitespace stripping). -/
def spec_public_ipv4_nl (ip : String) : Bool :=
  spec_public_ipv4_core ip.data ||
    (match ip.data.getLast? with
     | some c => c = '\n' && spec_public_ipv4_core ip.data.dropLast
     | none => false)

/-! ### The IP resolver `get_current_ip`

Each discovery endpoint either raises (network error, timeout, non-2xx —
`EndpointOutcome.err` carries the exception text) or returns a response
body, which the source decodes and strips before validating. -/

/-- Outcome of querying one IP-discovery endpoint. -/
inductive EndpointOutcome
  | err (e : String)
  | resp (body : String)
  deriving DecidableEq

/-- The `last_error` accumulator of `get_current_ip`: updated only when an
endpoint raises, not when it returns an invalid body. -/
def lastErrAux : List EndpointOutcome → Option String → Option String
  | [], acc => acc
  | .err e :: rest, _ => lastErrAux rest (some e)
  | .resp _ :: rest, acc => lastErrAux rest acc

/-- Function `get_current_ip` (source lines 85–108) over the outcomes of the ordered
endpoint list, starting at endpoint index `i` with accumulated `last_error`
`acc`.  Returns the result — the first validator-accepted stripped body, or
the final `RuntimeError` carrying `last_error` — together with the list of
endpoint indices actually queried, in order. -/
def get_current_ip : List EndpointOutcome → Nat → Option String →
    Except (Option String) String × List Nat
  | [], _, acc => (.error acc, [])
  | .err e :: rest, i, _ =>
    let r := get_current_ip rest (i + 1) (some e)
    (r.1, i :: r.2)
  | .resp body :: rest, i, acc =>
    let ip := pyStrip body
    if is_valid_public_ipv4 ip then (.ok ip, [i])
    else
      let r := get_current_ip rest (i + 1) acc
      (r.1, i :: r.2)

/-! ### The Cloudflare client -/

/-- One element of the provider's `result` list: the fields `id`,
`content`, `proxied` read by the source. -/
structure RecordState where
  id : String
  content : String
  proxied : Bool
  deriving DecidableEq

/-- A provider read response as consumed by `get_cloudflare_record`:
its `success` flag and its `result` list. -/
structure CfResponse where
  success : Bool
  result : List RecordState
  deriving DecidableEq

/-- Function `get_cloudflare_record` (source lines 127–139) applied to the parsed
provider response: on `success` and a nonempty `result` list, the triple of
the first element; otherwise the `RuntimeError` "Record DNS A non trovato"
(modelled as `.error ()`). -/
def get_cloudflare_record (resp : CfResponse) : Except Unit (String × String × Bool) :=
  match resp.success, resp.result with
  | true, rec :: _ => .ok (rec.id, rec.content, rec.proxied)
  | _, _ => .error ()

/-- Function `update_cloudflare_dns` (source lines 142–156) applied to the parsed
provider response of the PUT: it returns `bool(resp.get("success"))`
verbatim. -/
def update_cloudflare_dns (respSuccess : Option Bool) : Bool :=
  respSuccess.getD false

/-! ### The Telegram notifier -/

/-- Outcome of one `sendMessage` HTTP call for one chat id: an HTTP status
code, or a raised exception. -/
inductive TgOutcome
  | http (code : Nat)
  | exn
  deriving DecidableEq

/-- Observable events of one pass of the main loop body, in order. -/
inductive Event
  | fetch
  | update (ip : String) (proxied : Bool)
  | sleepRetry (secs : Nat)
  | tgSend (chatId : Int) (text : String)
  | sleepTick (secs : Nat)
  deriving DecidableEq

/-- The configuration fields the loop body reads (after `load_config`). -/
structure Config where
  record_name : String
  check_interval : Nat
  max_retries : Nat
  retry_delay : Nat
  telegram_bot_token : Option String
  telegram_chat_ids : List Int
  deriving DecidableEq

/-- Python truthiness of the optional bot token (`if not bot_token`):
missing and empty string are both falsy. -/
def tokenConfigured : Option String → Bool
  | none => false
  | some t => !(t = "")

/-- One delivery attempt of `send_telegram_message` for one chat id: the
network call is issued whatever its outcome; a non-200 status is logged,
and an exception is caught by the per-target `try`/`except` — in every
case the function moves on to the next target. -/
def sendOne (tg : Int → TgOutcome) (chatId : Int) (message : String) : List Event :=
  match tg chatId with
  | .http _ => [Event.tgSend chatId message]
  | .exn => [Event.tgSend chatId message]

/-- Function `send_telegram_message` (source lines 159–192): a silent no-op when the
bot token or the chat list is not configured; otherwise one delivery
attempt per configured chat id, failures logged and swallowed.  The
codomain is a plain event list — the source catches every per-target
exception, so the call never raises to its caller. -/
def send_telegram_message (cfg : Config) (tg : Int → TgOutcome) (message : String) :
    List Event :=
  if !tokenConfigured cfg.telegram_bot_token || cfg.telegram_chat_ids = [] then []
  else (cfg.telegram_chat_ids.map (fun chatId => sendOne tg chatId message)).flatten

/-! ### Configuration loading -/

/-- The JSON values relevant to `load_config` (the source's config file is
`json.load`ed; floats do not occur in the keys the claims touch). -/
inductive JValue
  | null
  | bool (b : Bool)
  | int (n : Int)
  | str (s : String)
  | list (xs : List JValue)

/-- Python truthiness of a JSON value. -/
def truthy : JValue → Bool
  | .null => false
  | .bool b => b
  | .int n => !(n = 0)
  | .str s => !(s = "")
  | .list xs => !xs.isEmpty

/-- Python truthiness of `cfg.get(key)`: a missing key is `None`, falsy. -/
def truthyOpt : Option JValue → Bool
  | none => false
  | some v => truthy v

/-- Python `int(x)` on a JSON value: ints verbatim, bools as 0/1, strings
via the string grammar; `int(None)` and `int(list)` raise `TypeError`
(`none`). -/
def pyIntJ : JValue → Option Int
  | .int n => some n
  | .bool b => some (if b then 1 else 0)
  | .str s => pyIntOfChars s.data
  | _ => none

/-- The raw configuration file contents, field by field (a missing key is
`none`). -/
structure RawConfig where
  cloudflare_api_token : Option JValue
  zone_id : Option JValue
  record_name : Option JValue
  check_interval : Option JValue
  max_retries : Option JValue
  retry_delay : Option JValue
  log_level : Option JValue
  telegram_bot_token : Option JValue
  telegram_chat_ids : Option JValue

/-- The configuration produced by `load_config`: defaults applied, required
keys present, chat ids normalised to integers. -/
structure LoadedConfig where
  cloudflare_api_token : JValue
  zone_id : JValue
  record_name : JValue
  check_interval : JValue
  max_retries : JValue
  retry_delay : JValue
  log_level : JValue
  telegram_bot_token : Option JValue
  telegram_chat_ids : List Int

/-- Conversion `[int(x) for x in chat_ids]` over a JSON list, `none` modelling the
`ValueError`/`TypeError` raised on the first non-convertible entry. -/
def pyIntJList : List JValue → Option (List Int)
  | [] => some []
  | v :: vs =>
    match pyIntJ v, pyIntJList vs with
    | some n, some ns => some (n :: ns)
    | _, _ => none

/-- Function `load_config` (source lines 13–46) after the JSON parse: defaults for
`check_interval`/`max_retries`/`retry_delay`/`log_level`, the required-key
truthiness check, and the normalisation `[int(x) for x in
(cfg.get("telegram_chat_ids") or [])]`.  Iterating a truthy string
iterates its characters (each converted by `int` on a one-character
string); iterating a truthy int or bool raises `TypeError`. -/
def load_config (raw : RawConfig) : Except String LoadedConfig :=
  if !truthyOpt raw.cloudflare_api_token then .error "cloudflare_api_token"
  else if !truthyOpt raw.zone_id then .error "zone_id"
  else if !truthyOpt raw.record_name then .error "record_name"
  else
    let mk : List Int → LoadedConfig := fun ids =>
      { cloudflare_api_token := raw.cloudflare_api_token.getD .null
        zone_id := raw.zone_id.getD .null
        record_name := raw.record_name.getD .null
        check_interval := raw.check_interval.getD (.int 30)
        max_retries := raw.max_retries.getD (.int 5)
        retry_delay := raw.retry_delay.getD (.int 5)
        log_level := raw.log_level.getD (.str "INFO")
        telegram_bot_token := raw.telegram_bot_token
        telegram_chat_ids := ids }
    match raw.telegram_chat_ids with
    | none => .ok (mk [])
    | some v =>
      if truthy v then
        match v with
        | .list xs =>
          match pyIntJList xs with
          | some ids => .ok (mk ids)
          | none => .error "int conversion of telegram_chat_ids entry"
        | .str s =>
          match pyIntJList (s.data.map (fun c => .str ⟨[c]⟩)) with
          | some ids => .ok (mk ids)
          | none => .error "int conversion of telegram_chat_ids entry"
        | _ => .error "telegram_chat_ids not iterable"
      else .ok (mk [])

/-! ### The reconciliation loop of `main`

One *tick* is one pass of the `while True` body (source lines 204–263).
The environment fixes the outcome of every external call the tick might
make: the endpoint outcomes for `get_current_ip`, the outcome of the
`attempt`-th Cloudflare fetch/update round, and the Telegram delivery
outcomes. -/

/-- Result of the Cloudflare update call, when one is issued during an
attempt: the parsed `success` flag, or a raised exception. -/
inductive UpdResult
  | ok (success : Bool)
  | exn
  deriving DecidableEq

/-- Outcome of the `attempt`-th retry round: `get_cloudflare_record` raises
(`fetchErr`), or returns a record triple, in which case `upd` is consulted
if and only if the round issues an update. -/
inductive AttemptOutcome
  | fetchErr
  | fetchOk (rec : RecordState) (upd : UpdResult)
  deriving DecidableEq

/-- The environment of one tick. -/
structure TickEnv where
  endpoints : List EndpointOutcome
  attempts : Nat → AttemptOutcome
  tg : Int → TgOutcome

/-- The Telegram message `main` sends after a successful update. -/
def updateMessage (cfg : Config) (current_ip : String) : String :=
  "IP pubblico aggiornato per " ++ cfg.record_name ++ ":\n" ++ current_ip

/-- The retry loop `for attempt in range(1, max_retries + 1)` (source lines
212–255).  `i` is the zero-based attempt index (Python's `attempt` is
`i + 1`) and `remaining` the number of attempts still allowed, so
`attempt < max_retries` is `1 ≤ remaining - 1` at each round.  Returns the
value assigned to `last_ip` by a `break`ing round (or `none` when the
budget is exhausted) together with the events of the rounds, in order.
Exceptions raised by the fetch or the update are caught by the `except`
at line 243, which sleeps `retry_delay` if attempts remain; an update that
returns `success=False` is only logged, and the loop moves to the next
attempt with no sleep. -/
def cloudflare_retry (cfg : Config) (env : TickEnv) (current_ip : String) :
    Nat → Nat → Option String × List Event
  | _, 0 => (none, [])
  | i, r + 1 =>
    match env.attempts i with
    | .fetchErr =>
      if r = 0 then (none, [Event.fetch])
      else
        ((cloudflare_retry cfg env current_ip (i + 1) r).1,
          Event.fetch :: Event.sleepRetry cfg.retry_delay ::
            (cloudflare_retry cfg env current_ip (i + 1) r).2)
    | .fetchOk rec upd =>
      if current_ip ≠ rec.content ∨ rec.proxied = true then
        match upd with
        | .ok true =>
          (some current_ip,
            Event.fetch :: Event.update current_ip false ::
              send_telegram_message cfg env.tg (updateMessage cfg current_ip))
        | .ok false =>
          ((cloudflare_retry cfg env current_ip (i + 1) r).1,
            Event.fetch :: Event.update current_ip false ::
              (cloudflare_retry cfg env current_ip (i + 1) r).2)
        | .exn =>
          if r = 0 then (none, [Event.fetch, Event.update current_ip false])
          else
            ((cloudflare_retry cfg env current_ip (i + 1) r).1,
              Event.fetch :: Event.update current_ip false ::
                Event.sleepRetry cfg.retry_delay ::
                  (cloudflare_retry cfg env current_ip (i + 1) r).2)
      else
        (some current_ip, [Event.fetch])

/-- One tick of the main loop (source lines 204–263): resolve the public IP
(a resolver failure is caught by the outer `except` at line 260), compare
with the process-local `last_ip`, reconcile with the provider through the
retry loop when they differ, and end with the inter-tick sleep, which the
source performs outside the `try` on every path. -/
def tick (cfg : Config) (env : TickEnv) (last_ip : Option String) :
    Option String × List Event :=
  match (get_current_ip env.endpoints 0 none).1 with
  | .error _ => (last_ip, [Event.sleepTick cfg.check_interval])
  | .ok current_ip =>
    if last_ip ≠ some current_ip then
      (match (cloudflare_retry cfg env current_ip 0 cfg.max_retries).1 with
       | some ip => some ip
       | none => last_ip,
       (cloudflare_retry cfg env current_ip 0 cfg.max_retries).2 ++
         [Event.sleepTick cfg.check_interval])
    else (last_ip, [Event.sleepTick cfg.check_interval])

/-- A run of finitely many consecutive ticks, each with its own
environment, threading `last_ip` and concatenating the event traces. -/
def run (cfg : Config) : List TickEnv → Option String → Option String × List Event
  | [], last_ip => (last_ip, [])
  | env :: envs, last_ip =>
    ((run cfg envs (tick cfg env last_ip).1).1,
      (tick cfg env last_ip).2 ++ (run cfg envs (tick cfg env last_ip).1).2)

/-! ### Event counting helpers -/

/-- Is the event a provider read call. -/
def isFetchEv : Event → Bool
  | .fetch => true
  | _ => false

/-- Is the event a provider write call. -/
def isUpdateEv : Event → Bool
  | .update _ _ => true
  | _ => false

/-- Is the event an inter-attempt retry sleep. -/
def isRetrySleepEv : Event → Bool
  | .sleepRetry _ => true
  | _ => false

/-- Number of provider read calls in a trace. -/
def countFetches (evs : List Event) : Nat := evs.countP isFetchEv

/-- Number of provider write calls in a trace. -/
def countUpdates (evs : List Event) : Nat := evs.countP isUpdateEv

/-- Number of inter-attempt retry sleeps in a trace. -/
def countRetrySleeps (evs : List Event) : Nat := evs.countP isRetrySleepEv

/-- An endpoint attempt that does not produce a validator-accepted IP:
either the request raised, or the stripped body fails validation. -/
def endpointFails : EndpointOutcome → Bool
  | .err _ => true
  | .resp body => !is_valid_public_ipv4 (pyStrip body)

/-- An attempt of the retry loop that fails, in the sense of the retry
protocol: the fetch raises, or the record needs a write and the update
either returns `success=False` or raises.  (An aligned record is a
successful attempt: the loop breaks with no write.) -/
def attemptFailsB (ip : String) : AttemptOutcome → Bool
  | .fetchErr => true
  | .fetchOk rec (.ok false) => decide (ip ≠ rec.content) || rec.proxied
  | .fetchOk rec .exn => decide (ip ≠ rec.content) || rec.proxied
  | .fetchOk _ (.ok true) => false

/-- An attempt of the retry loop that fails by a *raised exception*
(fetch exception, or update exception after a needed write) — these are
the attempts the `except` branch follows with a `retry_delay` sleep when
attempts remain. -/
def attemptRaisesB (ip : String) : AttemptOutcome → Bool
  | .fetchErr => true
  | .fetchOk rec .exn => decide (ip ≠ rec.content) || rec.proxied
  | _ => false

/-! ### Helper lemmas -/

theorem retry_zero (cfg : Config) (env : TickEnv) (ip : String) (i : Nat) :
    cloudflare_retry cfg env ip i 0 = (none, []) := rfl

theorem retry_fetchErr (cfg : Config) (env : TickEnv) (ip : String) (i r : Nat)
    (h : env.attempts i = .fetchErr) :
    cloudflare_retry cfg env ip i (r + 1) =
      if r = 0 then (none, [Event.fetch])
      else ((cloudflare_retry cfg env ip (i + 1) r).1,
        Event.fetch :: Event.sleepRetry cfg.retry_delay ::
          (cloudflare_retry cfg env ip (i + 1) r).2) := by
  simp only [cloudflare_retry, h]

theorem retry_aligned (cfg : Config) (env : TickEnv) (ip : String) (i r : Nat)
    (rec : RecordState) (upd : UpdResult)
    (h : env.attempts i = .fetchOk rec upd)
    (hcond : ¬(ip ≠ rec.content ∨ rec.proxied = true)) :
    cloudflare_retry cfg env ip i (r + 1) = (some ip, [Event.fetch]) := by
  simp only [cloudflare_retry, h, if_neg hcond]

theorem retry_upd_ok_true (cfg : Config) (env : TickEnv) (ip : String) (i r : Nat)
    (rec : RecordState)
    (h : env.attempts i = .fetchOk rec (.ok true))
    (hcond : ip ≠ rec.content ∨ rec.proxied = true) :
    cloudflare_retry cfg env ip i (r + 1) =
      (some ip, Event.fetch :: Event.update ip false ::
        send_telegram_message cfg env.tg (updateMessage cfg ip)) := by
  simp only [cloudflare_retry, h, if_pos hcond]

theorem retry_upd_ok_false (cfg : Config) (env : TickEnv) (ip : String) (i r : Nat)
    (rec : RecordState)
    (h : env.attempts i = .fetchOk rec (.ok false))
    (hcond : ip ≠ rec.content ∨ rec.proxied = true) :
    cloudflare_retry cfg env ip i (r + 1) =
      ((cloudflare_retry cfg env ip (i + 1) r).1,
        Event.fetch :: Event.update ip false ::
          (cloudflare_retry cfg env ip (i + 1) r).2) := by
  simp only [cloudflare_retry, h, if_pos hcond]

theorem retry_upd_exn (cfg : Config) (env : TickEnv) (ip : String) (i r : Nat)
    (rec : RecordState)
    (h : env.attempts i = .fetchOk rec .exn)
    (hcond : ip ≠ rec.content ∨ rec.proxied = true) :
    cloudflare_retry cfg env ip i (r + 1) =
      if r = 0 then (none, [Event.fetch, Event.update ip false])
      else ((cloudflare_retry cfg env ip (i + 1) r).1,
        Event.fetch :: Event.update ip false ::
          Event.sleepRetry cfg.retry_delay ::
            (cloudflare_retry cfg env ip (i + 1) r).2) := by
  simp only [cloudflare_retry, h, if_pos hcond]

theorem tick_resolver_error (cfg : Config) (env : TickEnv) (last_ip : Option String)
    (e : Option String) (h : (get_current_ip env.endpoints 0 none).1 = .error e) :
    tick cfg env last_ip = (last_ip, [Event.sleepTick cfg.check_interval]) := by
  unfold tick
  rw [h]

theorem tick_changed (cfg : Config) (env : TickEnv) (last_ip : Option String)
    (ip : String) (h : (get_current_ip env.endpoints 0 none).1 = .ok ip)
    (hlast : last_ip ≠ some ip) :
    tick cfg env last_ip =
      (match (cloudflare_retry cfg env ip 0 cfg.max_retries).1 with
       | some ip2 => some ip2
       | none => last_ip,
       (cloudflare_retry cfg env ip 0 cfg.max_retries).2 ++
         [Event.sleepTick cfg.check_interval]) := by
  unfold tick
  rw [h]
  simp only [if_pos hlast]

theorem tick_unchanged (cfg : Config) (env : TickEnv) (last_ip : Option String)
    (ip : String) (h : (get_current_ip env.endpoints 0 none).1 = .ok ip)
    (hlast : ¬last_ip ≠ some ip) :
    tick cfg env last_ip = (last_ip, [Event.sleepTick cfg.check_interval]) := by
  unfold tick
  rw [h]
  simp only [if_neg hlast]

theorem countP_ext {α : Type} (p q : α → Bool) :
    ∀ l : List α, (∀ a ∈ l, p a = q a) → l.countP p = l.countP q
  | [], _ => rfl
  | a :: l, h => by
    have ha := h a (by simp)
    simp only [List.countP_cons, ha, countP_ext p q l fun x hx => h x (by simp [hx])]

theorem sendOne_eq (tg : Int → TgOutcome) (chatId : Int) (message : String) :
    sendOne tg chatId message = [Event.tgSend chatId message] := by
  unfold sendOne
  cases tg chatId <;> rfl

theorem flatten_map_singleton {α β : Type} (f : α → β) :
    ∀ l : List α, (l.map fun a => [f a]).flatten = l.map f
  | [] => rfl
  | a :: l => by simp [flatten_map_singleton f l]

/-- Function `send_telegram_message` computed in closed form: empty when not
configured, otherwise exactly one send per configured chat id, whatever
the per-target outcomes. -/
theorem send_telegram_message_eq (cfg : Config) (tg : Int → TgOutcome) (message : String) :
    send_telegram_message cfg tg message =
      if !tokenConfigured cfg.telegram_bot_token || cfg.telegram_chat_ids = [] then []
      else cfg.telegram_chat_ids.map fun chatId => Event.tgSend chatId message := by
  unfold send_telegram_message
  have h : (fun chatId => sendOne tg chatId message) =
      fun chatId => [Event.tgSend chatId message] :=
    funext fun chatId => sendOne_eq tg chatId message
  rw [h, flatten_map_singleton]

theorem countUpdates_send (cfg : Config) (tg : Int → TgOutcome) (message : String) :
    countUpdates (send_telegram_message cfg tg message) = 0 := by
  rw [countUpdates, send_telegram_message_eq]
  split
  · rfl
  · rw [List.countP_map]
    simp [Function.comp, isUpdateEv]

theorem update_not_mem_send (cfg : Config) (tg : Int → TgOutcome) (message s : String)
    (b : Bool) : Event.update s b ∉ send_telegram_message cfg tg message := by
  rw [send_telegram_message_eq]
  split
  · simp
  · intro hmem
    obtain ⟨c, _, hc⟩ := List.mem_map.mp hmem
    exact Event.noConfusion hc

/-! ### Claim theorems -/

/-- Claim C8 — notifier contract: `send_telegram_message` is a total
function of its inputs whose trace does not depend on the per-target
delivery outcomes (a failure to one target never suppresses the delivery
attempts to the others, and no outcome makes it raise); with no bot token
configured (missing or empty) or with an empty target list it performs
zero network calls for every message; and when configured it issues
exactly one send per configured target. -/
theorem notify_never_raises_and_gated (rn : String) (ci mr rd : Nat) (ids : List Int)
    (tg tg2 : Int → TgOutcome) (tok : Option String) (t message : String) :
    send_telegram_message ⟨rn, ci, mr, rd, tok, ids⟩ tg message =
      send_telegram_message ⟨rn, ci, mr, rd, tok, ids⟩ tg2 message ∧
    send_telegram_message ⟨rn, ci, mr, rd, none, ids⟩ tg message = [] ∧
    send_telegram_message ⟨rn, ci, mr, rd, some "", ids⟩ tg message = [] ∧
    send_telegram_message ⟨rn, ci, mr, rd, tok, []⟩ tg message = [] ∧
    send_telegram_message ⟨rn, ci, mr, rd, some t, ids⟩ tg message =
      (if t = "" ∨ ids = [] then []
       else ids.map fun chatId => Event.tgSend chatId message) := by
  refine ⟨?_, ?_, ?_, ?_, ?_⟩
  · rw [send_telegram_message_eq, send_telegram_message_eq]
  · rw [send_telegram_message_eq]
    simp [tokenConfigured]
  · rw [send_telegram_message_eq]
    simp [tokenConfigured]
  · rw [send_telegram_message_eq]
    simp
  · rw [send_telegram_message_eq]
    by_cases ht : t = ""
    · simp [tokenConfigured, ht]
    · by_cases hi : ids = [] <;> simp [tokenConfigured, ht, hi]

/-- Claim C9 — fetchRecord result and failure condition: on a successful
provider response with a nonempty result list, `get_cloudflare_record`
returns the `(id, content, proxied)` triple of the *first* element of the
list; and it fails (the `RuntimeError`, modelled as `.error ()`) exactly
when the response is unsuccessful or the result list is empty. -/
theorem fetch_record_first_and_notfound (resp : CfResponse) :
    (∀ rec rest, resp.success = true → resp.result = rec :: rest →
      get_cloudflare_record resp = .ok (rec.id, rec.content, rec.proxied)) ∧
    (get_cloudflare_record resp = .error () ↔
      resp.success = false ∨ resp.result = []) := by
  obtain ⟨s, res⟩ := resp
  constructor
  · intro rec rest hs hres
    subst hs
    subst hres
    rfl
  · cases s <;> cases res <;> simp [get_cloudflare_record]

/-- Claim C9 witness: the theorem evaluated on a successful single-record
response and on an unsuccessful empty one. -/
theorem fetch_record_first_and_notfound_witness :
    get_cloudflare_record ⟨true, [⟨"abc", "203.0.113.4", true⟩]⟩ =
      .ok ("abc", "203.0.113.4", true) ∧
    get_cloudflare_record ⟨false, []⟩ = .error () := by
  constructor
  · exact (fetch_record_first_and_notfound ⟨true, [⟨"abc", "203.0.113.4", true⟩]⟩).1
      ⟨"abc", "203.0.113.4", true⟩ [] rfl rfl
  · exact (fetch_record_first_and_notfound ⟨false, []⟩).2.mpr (Or.inl rfl)

theorem pyIntJList_eq_none {xs : List JValue} {v : JValue} (hv : v ∈ xs)
    (hnone : pyIntJ v = none) : pyIntJList xs = none := by
  induction xs with
  | nil => cases hv
  | cons x xs ih =>
    rcases List.mem_cons.mp hv with h | h
    · subst h
      unfold pyIntJList
      rw [hnone]
    · unfold pyIntJList
      rw [ih h]
      cases pyIntJ x <;> rfl

/-- Claim C10 — configuration load and malformed optional notification
targets: with the required keys present, a `telegram_chat_ids` list
containing an entry `int` cannot convert makes `load_config` raise at
startup, even though the notification configuration is optional; while an
absent or `null` `telegram_chat_ids` is normalised to the empty list and
loading succeeds. -/
theorem load_config_chat_ids (raw : RawConfig) (xs : List JValue) (v : JValue)
    (h1 : truthyOpt raw.cloudflare_api_token = true)
    (h2 : truthyOpt raw.zone_id = true)
    (h3 : truthyOpt raw.record_name = true) :
    (raw.telegram_chat_ids = some (.list xs) → v ∈ xs → pyIntJ v = none →
      load_config raw = .error "int conversion of telegram_chat_ids entry") ∧
    (raw.telegram_chat_ids = none ∨ raw.telegram_chat_ids = some .null →
      ∃ cfg, load_config raw = .ok cfg ∧ cfg.telegram_chat_ids = []) := by
  constructor
  · intro hc hv hnone
    have hne : xs ≠ [] := by
      intro h
      subst h
      cases hv
    unfold load_config
    rw [h1, h2, h3, hc]
    simp only [Bool.not_true, Bool.false_eq_true, if_false]
    have htr : truthy (.list xs) = true := by
      unfold truthy
      simpa using hne
    rw [htr]
    simp only [if_true]
    rw [pyIntJList_eq_none hv hnone]
  · intro hc
    unfold load_config
    rw [h1, h2, h3]
    simp only [Bool.not_true, Bool.false_eq_true, if_false]
    rcases hc with hc | hc <;> rw [hc]
    · exact ⟨_, rfl, rfl⟩
    · exact ⟨_, rfl, rfl⟩

/-- Claim C10 witness: a config whose chat list holds the non-convertible
string "abc" fails to load, and the same config with the chat key absent
loads with an empty normalised list. -/
theorem load_config_chat_ids_witness :
    load_config ⟨some (.str "tok"), some (.str "z"), some (.str "rec"),
        none, none, none, none, none, some (.list [.str "abc"])⟩ =
      .error "int conversion of telegram_chat_ids entry" ∧
    ∃ cfg, load_config ⟨some (.str "tok"), some (.str "z"), some (.str "rec"),
        none, none, none, none, none, none⟩ = .ok cfg ∧
      cfg.telegram_chat_ids = [] := by
  constructor
  · exact (load_config_chat_ids
      ⟨some (.str "tok"), some (.str "z"), some (.str "rec"),
        none, none, none, none, none, some (.list [.str "abc"])⟩
      [.str "abc"] (.str "abc") rfl rfl rfl).1 rfl (by simp) rfl
  · exact (load_config_chat_ids
      ⟨some (.str "tok"), some (.str "z"), some (.str "rec"),
        none, none, none, none, none, none⟩
      [] .null rfl rfl rfl).2 (Or.inl rfl)

/-- Claim C6 — local short-circuit: when the resolved IP equals the
process-local `last_ip`, the tick performs zero provider calls of any
kind (its whole trace is the inter-tick sleep), leaves `last_ip`
unchanged, and proceeds directly to the inter-tick sleep. -/
theorem tick_local_short_circuit (cfg : Config) (env : TickEnv) (ip : String)
    (last_ip : Option String)
    (hres : (get_current_ip env.endpoints 0 none).1 = .ok ip)
    (hlast : last_ip = some ip) :
    tick cfg env last_ip = (last_ip, [Event.sleepTick cfg.check_interval]) := by
  unfold tick
  rw [hres]
  subst hlast
  simp

/-- Claim C6 witness: a tick whose resolver yields the IP already held in
local state is exactly one inter-tick sleep. -/
theorem tick_local_short_circuit_witness :
    tick ⟨"example.com", 30, 5, 5, none, []⟩
        ⟨[.resp "198.51.100.9"], fun _ => .fetchErr, fun _ => .exn⟩
        (some "198.51.100.9") =
      (some "198.51.100.9", [Event.sleepTick 30]) :=
  tick_local_short_circuit ⟨"example.com", 30, 5, 5, none, []⟩
    ⟨[.resp "198.51.100.9"], fun _ => .fetchErr, fun _ => .exn⟩
    "198.51.100.9" (some "198.51.100.9") rfl rfl

theorem cloudflare_retry_result (cfg : Config) (env : TickEnv) (ip : String) :
    ∀ r i, (cloudflare_retry cfg env ip i r).1 = none ∨
      (cloudflare_retry cfg env ip i r).1 = some ip := by
  intro r
  induction r with
  | zero => intro i; exact Or.inl rfl
  | succ r ih =>
    intro i
    cases hA : env.attempts i with
    | fetchErr =>
      rw [retry_fetchErr cfg env ip i r hA]
      by_cases hr : r = 0
      · rw [if_pos hr]
        exact Or.inl rfl
      · rw [if_neg hr]
        exact ih (i + 1)
    | fetchOk rec upd =>
      by_cases hcond : ip ≠ rec.content ∨ rec.proxied = true
      · cases upd with
        | ok success =>
          cases success
          · rw [retry_upd_ok_false cfg env ip i r rec hA hcond]
            exact ih (i + 1)
          · rw [retry_upd_ok_true cfg env ip i r rec hA hcond]
            exact Or.inr rfl
        | exn =>
          rw [retry_upd_exn cfg env ip i r rec hA hcond]
          by_cases hr : r = 0
          · rw [if_pos hr]
            exact Or.inl rfl
          · rw [if_neg hr]
            exact ih (i + 1)
      · rw [retry_aligned cfg env ip i r rec upd hA hcond]
        exact Or.inr rfl

/-- Claim C7 — tick-boundary error containment and atomicity: whatever the
environment does (any combination of resolver, provider and notifier
outcomes, exceptions included), the tick returns and its trace ends with
the `check_interval` inter-tick sleep, so the loop proceeds to the next
tick instead of terminating; a resolver failure is caught at the outer
boundary leaving the state untouched with no provider call; and the only
state change a tick can ever make is recording its successfully
reconciled resolved IP — a failed tick leaves `last_ip` unchanged. -/
theorem tick_error_containment (cfg : Config) (env : TickEnv) (last_ip : Option String) :
    (∃ evs, (tick cfg env last_ip).2 = evs ++ [Event.sleepTick cfg.check_interval]) ∧
    (∀ e, (get_current_ip env.endpoints 0 none).1 = .error e →
      tick cfg env last_ip = (last_ip, [Event.sleepTick cfg.check_interval])) ∧
    ((tick cfg env last_ip).1 = last_ip ∨
      ∃ ip, (get_current_ip env.endpoints 0 none).1 = .ok ip ∧
        (tick cfg env last_ip).1 = some ip) := by
  refine ⟨?_, ?_, ?_⟩
  · cases hres : (get_current_ip env.endpoints 0 none).1 with
    | error e =>
      rw [tick_resolver_error cfg env last_ip e hres]
      exact ⟨[], rfl⟩
    | ok ip =>
      by_cases hlast : last_ip ≠ some ip
      · rw [tick_changed cfg env last_ip ip hres hlast]
        exact ⟨_, rfl⟩
      · rw [tick_unchanged cfg env last_ip ip hres hlast]
        exact ⟨[], rfl⟩
  · intro e he
    exact tick_resolver_error cfg env last_ip e he
  · cases hres : (get_current_ip env.endpoints 0 none).1 with
    | error e =>
      rw [tick_resolver_error cfg env last_ip e hres]
      exact Or.inl rfl
    | ok ip =>
      by_cases hlast : last_ip ≠ some ip
      · rw [tick_changed cfg env last_ip ip hres hlast]
        rcases cloudflare_retry_result cfg env ip cfg.max_retries 0 with h | h <;> rw [h]
        · exact Or.inl rfl
        · exact Or.inr ⟨ip, rfl, rfl⟩
      · rw [tick_unchanged cfg env last_ip ip hres hlast]
        exact Or.inl rfl

theorem get_current_ip_fallback_aux (s : String) (post : List EndpointOutcome)
    (hs : is_valid_public_ipv4 (pyStrip s) = true) :
    ∀ (pre : List EndpointOutcome) (i : Nat) (acc : Option String),
      (∀ o ∈ pre, endpointFails o = true) →
      get_current_ip (pre ++ .resp s :: post) i acc =
        (.ok (pyStrip s), List.range' i (pre.length + 1))
  | [], i, acc, _ => by
    simp only [List.nil_append, get_current_ip, hs, if_true, List.length_nil,
      List.range'_succ, List.range']
  | .err e :: pre, i, acc, h => by
    have hrest := get_current_ip_fallback_aux s post hs pre (i + 1) (some e)
      fun o ho => h o (by simp [ho])
    simp only [List.cons_append, get_current_ip, List.append_eq, hrest,
      List.length_cons, List.range'_succ]
  | .resp body :: pre, i, acc, h => by
    have hbody : is_valid_public_ipv4 (pyStrip body) = false := by
      have := h (.resp body) (by simp)
      unfold endpointFails at this
      simpa using this
    have hrest := get_current_ip_fallback_aux s post hs pre (i + 1) acc
      fun o ho => h o (by simp [ho])
    simp only [List.cons_append, get_current_ip, List.append_eq, hbody, if_false,
      hrest, List.length_cons, List.range'_succ, Bool.false_eq_true]

theorem get_current_ip_exhaust_aux :
    ∀ (outs : List EndpointOutcome) (i : Nat) (acc : Option String),
      (∀ o ∈ outs, endpointFails o = true) →
      get_current_ip outs i acc = (.error (lastErrAux outs acc), List.range' i outs.length)
  | [], i, acc, _ => by simp [get_current_ip, lastErrAux, List.range']
  | .err e :: outs, i, acc, h => by
    have hrest := get_current_ip_exhaust_aux outs (i + 1) (some e)
      fun o ho => h o (by simp [ho])
    simp only [get_current_ip, hrest, lastErrAux, List.length_cons, List.range'_succ]
  | .resp body :: outs, i, acc, h => by
    have hbody : is_valid_public_ipv4 (pyStrip body) = false := by
      have := h (.resp body) (by simp)
      unfold endpointFails at this
      simpa using this
    have hrest := get_current_ip_exhaust_aux outs (i + 1) acc
      fun o ho => h o (by simp [ho])
    simp only [get_current_ip, hbody, if_false, hrest, lastErrAux,
      List.length_cons, List.range'_succ, Bool.false_eq_true]

/-- Claim C5 — resolver ordered fallback: when the endpoints before
position `k` each raise or return a validator-rejected body and the
endpoint at position `k` returns a validator-accepted body, the resolver
returns that (stripped) IP and its query trace is exactly the endpoint
indices `0, …, k` in order — each endpoint queried at most once and none
after the success; and when every endpoint fails, it raises the final
`RuntimeError` carrying the last *exception* encountered (`none` when
every failure was a mere invalid body). -/
theorem resolver_ordered_fallback (pre post : List EndpointOutcome) (s : String)
    (hpre : ∀ o ∈ pre, endpointFails o = true)
    (hs : is_valid_public_ipv4 (pyStrip s) = true) :
    get_current_ip (pre ++ .resp s :: post) 0 none =
      (.ok (pyStrip s), List.range (pre.length + 1)) ∧
    (∀ outs : List EndpointOutcome, (∀ o ∈ outs, endpointFails o = true) →
      get_current_ip outs 0 none =
        (.error (lastErrAux outs none), List.range outs.length)) := by
  constructor
  · rw [List.range_eq_range']
    exact get_current_ip_fallback_aux s post hs pre 0 none hpre
  · intro outs houts
    rw [List.range_eq_range']
    exact get_current_ip_exhaust_aux outs 0 none houts

/-- Claim C5 witness: endpoint 0 raises, endpoint 1 returns the private
`10.0.0.1` (validator-rejected), endpoint 2 returns a valid body that
strips to `8.8.8.8`: the resolver answers `8.8.8.8` having queried exactly
`[0, 1, 2]`; and with only failing endpoints it errors carrying the last
exception. -/
theorem resolver_ordered_fallback_witness :
    get_current_ip [.err "timeout", .resp "10.0.0.1", .resp " 8.8.8.8\n"] 0 none =
      (.ok "8.8.8.8", [0, 1, 2]) ∧
    get_current_ip [.err "timeout", .resp "nonsense"] 0 none =
      (.error (some "timeout"), [0, 1]) := by
  have h := resolver_ordered_fallback [.err "timeout", .resp "10.0.0.1"] []
    " 8.8.8.8\n" (by decide) (by decide)
  exact ⟨h.1, h.2 [.err "timeout", .resp "nonsense"] (by decide)⟩

theorem retry_consistent (cfg : Config) (env : TickEnv) (ip rid : String)
    (u : UpdResult) (hmr : 1 ≤ cfg.max_retries)
    (h0 : env.attempts 0 = .fetchOk ⟨rid, ip, false⟩ u) :
    cloudflare_retry cfg env ip 0 cfg.max_retries = (some ip, [Event.fetch]) := by
  cases hm : cfg.max_retries with
  | zero => omega
  | succ r =>
    exact retry_aligned cfg env ip 0 r ⟨rid, ip, false⟩ u h0 (by simp)

theorem tick_consistent (cfg : Config) (env : TickEnv) (ip : String)
    (last_ip : Option String) (hmr : 1 ≤ cfg.max_retries)
    (hres : (get_current_ip env.endpoints 0 none).1 = .ok ip)
    (hcons : ∃ rid u, env.attempts 0 = .fetchOk ⟨rid, ip, false⟩ u) :
    (tick cfg env last_ip).1 = some ip ∧
    countUpdates (tick cfg env last_ip).2 = 0 ∧
    countFetches (tick cfg env last_ip).2 ≤ 1 := by
  obtain ⟨rid, u, h0⟩ := hcons
  by_cases hlast : last_ip ≠ some ip
  · rw [tick_changed cfg env last_ip ip hres hlast,
      retry_consistent cfg env ip rid u hmr h0]
    refine ⟨rfl, ?_, ?_⟩ <;>
      simp [countUpdates, countFetches, List.countP_cons, isUpdateEv, isFetchEv]
  · rw [tick_unchanged cfg env last_ip ip hres hlast]
    refine ⟨not_not.mp hlast, ?_, ?_⟩ <;>
      simp [countUpdates, countFetches, List.countP_cons, isUpdateEv, isFetchEv]

theorem run_consistent_no_updates (cfg : Config) (ip : String)
    (hmr : 1 ≤ cfg.max_retries) :
    ∀ (envs : List TickEnv) (last_ip : Option String),
      (∀ e ∈ envs, (get_current_ip e.endpoints 0 none).1 = .ok ip ∧
        ∃ rid u, e.attempts 0 = .fetchOk ⟨rid, ip, false⟩ u) →
      countUpdates (run cfg envs last_ip).2 = 0
  | [], last_ip, _ => rfl
  | e :: envs, last_ip, h => by
    have he := h e (by simp)
    have hother := run_consistent_no_updates cfg ip hmr envs (tick cfg e last_ip).1
      fun x hx => h x (by simp [hx])
    have htick := tick_consistent cfg e ip last_ip hmr he.1 he.2
    show countUpdates ((tick cfg e last_ip).2 ++ (run cfg envs (tick cfg e last_ip).1).2) = 0
    rw [countUpdates, List.countP_append]
    rw [countUpdates] at hother
    rw [countUpdates] at htick
    omega

/-- Claim C1 — idempotent reconciliation: on a tick whose resolved IP
already equals the provider record's content with the proxy flag disabled,
the tick issues zero `updateRecord` writes, sets `last_ip` to the resolved
IP and stops retrying (at most one fetch); and across any number of
consecutive ticks with the same resolved IP and the same already-correct
provider state, no write is ever issued. -/
theorem reconcile_idempotent (cfg : Config) (env : TickEnv) (envs : List TickEnv)
    (ip : String) (last_ip : Option String)
    (hmr : 1 ≤ cfg.max_retries)
    (hres : (get_current_ip env.endpoints 0 none).1 = .ok ip)
    (hcons : ∃ rid u, env.attempts 0 = .fetchOk ⟨rid, ip, false⟩ u)
    (hall : ∀ e ∈ envs, (get_current_ip e.endpoints 0 none).1 = .ok ip ∧
      ∃ rid u, e.attempts 0 = .fetchOk ⟨rid, ip, false⟩ u) :
    (tick cfg env last_ip).1 = some ip ∧
    countUpdates (tick cfg env last_ip).2 = 0 ∧
    countFetches (tick cfg env last_ip).2 ≤ 1 ∧
    countUpdates (run cfg envs last_ip).2 = 0 := by
  obtain ⟨h1, h2, h3⟩ := tick_consistent cfg env ip last_ip hmr hres hcons
  exact ⟨h1, h2, h3, run_consistent_no_updates cfg ip hmr envs last_ip hall⟩

/-- Claim C1 witness: two consecutive ticks resolving `198.51.100.9` with
the provider already aligned and unproxied — the first tick records the IP
with a single fetch and no write, and the two-tick run issues no write. -/
theorem reconcile_idempotent_witness :
    (tick ⟨"example.com", 30, 5, 5, none, []⟩
        ⟨[.resp "198.51.100.9"],
          fun _ => .fetchOk ⟨"abc", "198.51.100.9", false⟩ (.ok true),
          fun _ => .http 200⟩ none).1 = some "198.51.100.9" ∧
    countUpdates (tick ⟨"example.com", 30, 5, 5, none, []⟩
        ⟨[.resp "198.51.100.9"],
          fun _ => .fetchOk ⟨"abc", "198.51.100.9", false⟩ (.ok true),
          fun _ => .http 200⟩ none).2 = 0 ∧
    countFetches (tick ⟨"example.com", 30, 5, 5, none, []⟩
        ⟨[.resp "198.51.100.9"],
          fun _ => .fetchOk ⟨"abc", "198.51.100.9", false⟩ (.ok true),
          fun _ => .http 200⟩ none).2 ≤ 1 ∧
    countUpdates (run ⟨"example.com", 30, 5, 5, none, []⟩
        [⟨[.resp "198.51.100.9"],
          fun _ => .fetchOk ⟨"abc", "198.51.100.9", false⟩ (.ok true),
          fun _ => .http 200⟩,
         ⟨[.resp "198.51.100.9"],
          fun _ => .fetchOk ⟨"abc", "198.51.100.9", false⟩ (.ok true),
          fun _ => .http 200⟩] none).2 = 0 :=
  reconcile_idempotent ⟨"example.com", 30, 5, 5, none, []⟩
    ⟨[.resp "198.51.100.9"],
      fun _ => .fetchOk ⟨"abc", "198.51.100.9", false⟩ (.ok true),
      fun _ => .http 200⟩
    [⟨[.resp "198.51.100.9"],
      fun _ => .fetchOk ⟨"abc", "198.51.100.9", false⟩ (.ok true),
      fun _ => .http 200⟩,
     ⟨[.resp "198.51.100.9"],
      fun _ => .fetchOk ⟨"abc", "198.51.100.9", false⟩ (.ok true),
      fun _ => .http 200⟩]
    "198.51.100.9" none (by decide) rfl ⟨"abc", .ok true, rfl⟩
    (by
      intro e he
      simp only [List.mem_cons, List.not_mem_nil, or_false] at he
      rcases he with he | he <;> subst he <;> exact ⟨rfl, "abc", .ok true, rfl⟩)

theorem update_mem_retry_false (cfg : Config) (env : TickEnv) (ip : String) :
    ∀ r i s b, Event.update s b ∈ (cloudflare_retry cfg env ip i r).2 → b = false := by
  intro r
  induction r with
  | zero =>
    intro i s b hmem
    simp [retry_zero] at hmem
  | succ r ih =>
    intro i s b hmem
    cases hA : env.attempts i with
    | fetchErr =>
      rw [retry_fetchErr cfg env ip i r hA] at hmem
      by_cases hr : r = 0
      · rw [if_pos hr] at hmem
        simp only [List.mem_singleton] at hmem
        exact Event.noConfusion hmem
      · rw [if_neg hr] at hmem
        simp only [List.mem_cons] at hmem
        rcases hmem with h | h | h
        · exact Event.noConfusion h
        · exact Event.noConfusion h
        · exact ih (i + 1) s b h
    | fetchOk rec upd =>
      by_cases hcond : ip ≠ rec.content ∨ rec.proxied = true
      · cases upd with
        | ok success =>
          cases success
          · rw [retry_upd_ok_false cfg env ip i r rec hA hcond] at hmem
            simp only [List.mem_cons] at hmem
            rcases hmem with h | h | h
            · exact Event.noConfusion h
            · injection h with h1 h2
            · exact ih (i + 1) s b h
          · rw [retry_upd_ok_true cfg env ip i r rec hA hcond] at hmem
            simp only [List.mem_cons] at hmem
            rcases hmem with h | h | h
            · exact Event.noConfusion h
            · injection h with h1 h2
            · exact absurd h (update_not_mem_send cfg env.tg (updateMessage cfg ip) s b)
        | exn =>
          rw [retry_upd_exn cfg env ip i r rec hA hcond] at hmem
          by_cases hr : r = 0
          · rw [if_pos hr] at hmem
            simp only [List.mem_cons] at hmem
            rcases hmem with h | h | h
            · exact Event.noConfusion h
            · injection h with h1 h2
            · exact absurd h (List.not_mem_nil _)
          · rw [if_neg hr] at hmem
            simp only [List.mem_cons] at hmem
            rcases hmem with h | h | h | h
            · exact Event.noConfusion h
            · injection h with h1 h2
            · exact Event.noConfusion h
            · exact ih (i + 1) s b h
      · rw [retry_aligned cfg env ip i r rec upd hA hcond] at hmem
        simp only [List.mem_singleton] at hmem
        exact Event.noConfusion hmem

theorem update_mem_tick_false (cfg : Config) (env : TickEnv) (last_ip : Option String)
    (s : String) (b : Bool) (hmem : Event.update s b ∈ (tick cfg env last_ip).2) :
    b = false := by
  cases hres : (get_current_ip env.endpoints 0 none).1 with
  | error e =>
    rw [tick_resolver_error cfg env last_ip e hres] at hmem
    simp only [List.mem_singleton] at hmem
    exact Event.noConfusion hmem
  | ok ip =>
    by_cases hlast : last_ip ≠ some ip
    · rw [tick_changed cfg env last_ip ip hres hlast] at hmem
      simp only [List.mem_append, List.mem_singleton] at hmem
      rcases hmem with h | h
      · exact update_mem_retry_false cfg env ip cfg.max_retries 0 s b h
      · exact Event.noConfusion h
    · rw [tick_unchanged cfg env last_ip ip hres hlast] at hmem
      simp only [List.mem_singleton] at hmem
      exact Event.noConfusion hmem

/-- Claim C3 — forced unproxy: on a tick whose provider record already
holds the resolved IP but with the proxy flag enabled (and whose update
succeeds), the tick issues exactly one `updateRecord` write, that write
carries the resolved IP with the proxy flag disabled, and `last_ip` is set
to the resolved IP; moreover *every* write any tick ever issues has the
proxy flag written as disabled, regardless of its prior value. -/
theorem forced_unproxy (cfg : Config) (env : TickEnv) (ip rid : String)
    (last_ip : Option String)
    (hmr : 1 ≤ cfg.max_retries)
    (hres : (get_current_ip env.endpoints 0 none).1 = .ok ip)
    (hlast : last_ip ≠ some ip)
    (h0 : env.attempts 0 = .fetchOk ⟨rid, ip, true⟩ (.ok true)) :
    countUpdates (tick cfg env last_ip).2 = 1 ∧
    Event.update ip false ∈ (tick cfg env last_ip).2 ∧
    (tick cfg env last_ip).1 = some ip ∧
    (∀ (cfg2 : Config) (env2 : TickEnv) (last2 : Option String) (s : String) (b : Bool),
      Event.update s b ∈ (tick cfg2 env2 last2).2 → b = false) := by
  have hretry : cloudflare_retry cfg env ip 0 cfg.max_retries =
      (some ip, Event.fetch :: Event.update ip false ::
        send_telegram_message cfg env.tg (updateMessage cfg ip)) := by
    cases hm : cfg.max_retries with
    | zero => omega
    | succ r => exact retry_upd_ok_true cfg env ip 0 r ⟨rid, ip, true⟩ h0 (Or.inr rfl)
  rw [tick_changed cfg env last_ip ip hres hlast, hretry]
  refine ⟨?_, ?_, rfl, fun cfg2 env2 last2 s b h => update_mem_tick_false cfg2 env2 last2 s b h⟩
  · show countUpdates ((Event.fetch :: Event.update ip false ::
      send_telegram_message cfg env.tg (updateMessage cfg ip)) ++
        [Event.sleepTick cfg.check_interval]) = 1
    rw [countUpdates, List.countP_append, List.countP_cons, List.countP_cons]
    have hsend := countUpdates_send cfg env.tg (updateMessage cfg ip)
    rw [countUpdates] at hsend
    rw [hsend]
    simp [isUpdateEv]
  · simp

/-- Claim C3 witness: the spec's end-to-end scenario tick — resolver gives
`203.0.113.5`, provider holds the same IP but proxied — issues exactly one
write, with the proxy flag disabled. -/
theorem forced_unproxy_witness :
    countUpdates (tick ⟨"example.com", 30, 5, 5, none, []⟩
        ⟨[.resp "203.0.113.5"],
          fun _ => .fetchOk ⟨"abc", "203.0.113.5", true⟩ (.ok true),
          fun _ => .http 200⟩ none).2 = 1 ∧
    Event.update "203.0.113.5" false ∈ (tick ⟨"example.com", 30, 5, 5, none, []⟩
        ⟨[.resp "203.0.113.5"],
          fun _ => .fetchOk ⟨"abc", "203.0.113.5", true⟩ (.ok true),
          fun _ => .http 200⟩ none).2 ∧
    (tick ⟨"example.com", 30, 5, 5, none, []⟩
        ⟨[.resp "203.0.113.5"],
          fun _ => .fetchOk ⟨"abc", "203.0.113.5", true⟩ (.ok true),
          fun _ => .http 200⟩ none).1 = some "203.0.113.5" := by
  have h := forced_unproxy ⟨"example.com", 30, 5, 5, none, []⟩
    ⟨[.resp "203.0.113.5"],
      fun _ => .fetchOk ⟨"abc", "203.0.113.5", true⟩ (.ok true),
      fun _ => .http 200⟩ "203.0.113.5" "abc" none (by decide) rfl (by simp) rfl
  exact ⟨h.1, h.2.1, h.2.2.1⟩

@[simp] theorem isFetchEv_fetch : isFetchEv .fetch = true := rfl

@[simp] theorem isFetchEv_update (s : String) (b : Bool) :
    isFetchEv (.update s b) = false := rfl

@[simp] theorem isFetchEv_sleepRetry (n : Nat) : isFetchEv (.sleepRetry n) = false := rfl

@[simp] theorem isFetchEv_tgSend (c : Int) (t : String) :
    isFetchEv (.tgSend c t) = false := rfl

@[simp] theorem isFetchEv_sleepTick (n : Nat) : isFetchEv (.sleepTick n) = false := rfl

@[simp] theorem isUpdateEv_fetch : isUpdateEv .fetch = false := rfl

@[simp] theorem isUpdateEv_update (s : String) (b : Bool) :
    isUpdateEv (.update s b) = true := rfl

@[simp] theorem isUpdateEv_sleepRetry (n : Nat) : isUpdateEv (.sleepRetry n) = false := rfl

@[simp] theorem isUpdateEv_tgSend (c : Int) (t : String) :
    isUpdateEv (.tgSend c t) = false := rfl

@[simp] theorem isUpdateEv_sleepTick (n : Nat) : isUpdateEv (.sleepTick n) = false := rfl

@[simp] theorem isRetrySleepEv_fetch : isRetrySleepEv .fetch = false := rfl

@[simp] theorem isRetrySleepEv_update (s : String) (b : Bool) :
    isRetrySleepEv (.update s b) = false := rfl

@[simp] theorem isRetrySleepEv_sleepRetry (n : Nat) :
    isRetrySleepEv (.sleepRetry n) = true := rfl

@[simp] theorem isRetrySleepEv_tgSend (c : Int) (t : String) :
    isRetrySleepEv (.tgSend c t) = false := rfl

@[simp] theorem isRetrySleepEv_sleepTick (n : Nat) :
    isRetrySleepEv (.sleepTick n) = false := rfl

theorem rangeCountRaises (env : TickEnv) (ip : String) (i r2 : Nat) :
    (List.range (r2 + 1)).countP (fun j => attemptRaisesB ip (env.attempts (i + j))) =
      (if attemptRaisesB ip (env.attempts i) then 1 else 0) +
        (List.range r2).countP (fun j => attemptRaisesB ip (env.attempts (i + 1 + j))) := by
  rw [List.range_succ_eq_map, List.countP_cons, List.countP_map]
  have hext : ∀ a ∈ List.range r2,
      ((fun j => attemptRaisesB ip (env.attempts (i + j))) ∘ Nat.succ) a =
        (fun j => attemptRaisesB ip (env.attempts (i + 1 + j))) a := by
    intro a _
    show attemptRaisesB ip (env.attempts (i + Nat.succ a)) =
      attemptRaisesB ip (env.attempts (i + 1 + a))
    congr 2
    omega
  rw [countP_ext _ _ _ hext]
  simp only [Nat.add_zero]
  exact Nat.add_comm _ _

theorem retry_all_fail (cfg : Config) (env : TickEnv) (ip : String) :
    ∀ r i, (∀ j, j < r → attemptFailsB ip (env.attempts (i + j)) = true) →
      (cloudflare_retry cfg env ip i r).1 = none ∧
      countFetches (cloudflare_retry cfg env ip i r).2 = r ∧
      countRetrySleeps (cloudflare_retry cfg env ip i r).2 =
        (List.range (r - 1)).countP (fun j => attemptRaisesB ip (env.attempts (i + j))) := by
  intro r
  induction r with
  | zero => exact fun i _ => ⟨rfl, rfl, rfl⟩
  | succ r ih =>
    intro i h
    have h0 : attemptFailsB ip (env.attempts i) = true := by
      have := h 0 (Nat.succ_pos r)
      rwa [Nat.add_zero] at this
    have hshift : ∀ j, j < r → attemptFailsB ip (env.attempts (i + 1 + j)) = true := by
      intro j hj
      have := h (j + 1) (by omega)
      rwa [show i + (j + 1) = i + 1 + j by omega] at this
    cases hA : env.attempts i with
    | fetchErr =>
      have hra : attemptRaisesB ip (env.attempts i) = true := by rw [hA]; rfl
      rw [retry_fetchErr cfg env ip i r hA]
      cases r with
      | zero =>
        rw [if_pos rfl]
        exact ⟨rfl, rfl, rfl⟩
      | succ r2 =>
        rw [if_neg (Nat.succ_ne_zero r2)]
        obtain ⟨ih1, ih2, ih3⟩ := ih (i + 1) hshift
        refine ⟨ih1, ?_, ?_⟩
        · rw [countFetches, List.countP_cons, List.countP_cons]
          rw [countFetches] at ih2
          rw [ih2]
          simp [isFetchEv]
        · rw [countRetrySleeps, List.countP_cons, List.countP_cons]
          rw [countRetrySleeps] at ih3
          rw [ih3]
          simp only [Nat.add_sub_cancel]
          rw [rangeCountRaises env ip i r2, if_pos hra]
          simp only [isRetrySleepEv_fetch, isRetrySleepEv_sleepRetry, if_true, if_false,
            Bool.false_eq_true]
          omega
    | fetchOk rec upd =>
      rw [hA] at h0
      cases upd with
      | ok success =>
        cases success
        · have hcond : ip ≠ rec.content ∨ rec.proxied = true := by
            simpa [attemptFailsB] using h0
          have hra : attemptRaisesB ip (env.attempts i) = false := by
            rw [hA]; rfl
          rw [retry_upd_ok_false cfg env ip i r rec hA hcond]
          obtain ⟨ih1, ih2, ih3⟩ := ih (i + 1) hshift
          refine ⟨ih1, ?_, ?_⟩
          · rw [countFetches, List.countP_cons, List.countP_cons]
            rw [countFetches] at ih2
            rw [ih2]
            simp [isFetchEv, isUpdateEv]
          · rw [countRetrySleeps, List.countP_cons, List.countP_cons]
            rw [countRetrySleeps] at ih3
            rw [ih3]
            cases r with
            | zero =>
              simp only [Nat.zero_sub, Nat.add_sub_cancel, Nat.succ_sub_one,
                List.range_zero, List.countP_nil, isRetrySleepEv_fetch,
                isRetrySleepEv_update, if_false, Bool.false_eq_true]
            | succ r2 =>
              simp only [Nat.add_sub_cancel, Nat.succ_sub_one]
              rw [rangeCountRaises env ip i r2, hra]
              simp
        · exact absurd h0 (by simp [attemptFailsB])
      | exn =>
        have hcond : ip ≠ rec.content ∨ rec.proxied = true := by
          simpa [attemptFailsB] using h0
        have hra : attemptRaisesB ip (env.attempts i) = true := by
          rw [hA]
          simp only [attemptRaisesB]
          rcases hcond with hc | hc
          · simp [hc]
          · simp [hc]
        rw [retry_upd_exn cfg env ip i r rec hA hcond]
        cases r with
        | zero =>
          rw [if_pos rfl]
          exact ⟨rfl, rfl, rfl⟩
        | succ r2 =>
          rw [if_neg (Nat.succ_ne_zero r2)]
          obtain ⟨ih1, ih2, ih3⟩ := ih (i + 1) hshift
          refine ⟨ih1, ?_, ?_⟩
          · rw [countFetches, List.countP_cons, List.countP_cons, List.countP_cons]
            rw [countFetches] at ih2
            rw [ih2]
            simp [isFetchEv, isUpdateEv, isRetrySleepEv]
          · rw [countRetrySleeps, List.countP_cons, List.countP_cons, List.countP_cons]
            rw [countRetrySleeps] at ih3
            rw [ih3]
            simp only [Nat.add_sub_cancel]
            rw [rangeCountRaises env ip i r2, if_pos hra]
            simp only [isRetrySleepEv_fetch, isRetrySleepEv_update,
              isRetrySleepEv_sleepRetry, if_true, if_false, Bool.false_eq_true]
            omega

/-- Claim C2 (amended) — bounded retry exhaustion: on a tick in which
every provider attempt fails (fetch exception, update exception, or update
returning `success=False` — `attemptFailsB`), the reconciliation performs
at most `max_retries` attempts (exactly `max_retries` fetch rounds), does
not crash, abandons the tick leaving `last_ip` unchanged — and the
`retry_delay` sleeps occur exactly after those non-final attempts that
failed *by a raised exception* (`attemptRaisesB`); an attempt whose update
merely returned `success=False` is followed immediately by the next
attempt with no sleep, so the sleep count is the exception count among the
first `max_retries - 1` attempts, not `max_retries - 1` itself. -/
theorem bounded_retry_exhaustion (cfg : Config) (env : TickEnv) (ip : String)
    (last_ip : Option String)
    (hres : (get_current_ip env.endpoints 0 none).1 = .ok ip)
    (hlast : last_ip ≠ some ip)
    (hfail : ∀ j, j < cfg.max_retries → attemptFailsB ip (env.attempts j) = true) :
    (tick cfg env last_ip).1 = last_ip ∧
    countFetches (tick cfg env last_ip).2 = cfg.max_retries ∧
    countRetrySleeps (tick cfg env last_ip).2 =
      (List.range (cfg.max_retries - 1)).countP
        (fun j => attemptRaisesB ip (env.attempts j)) := by
  have hfail0 : ∀ j, j < cfg.max_retries →
      attemptFailsB ip (env.attempts (0 + j)) = true := by
    intro j hj
    rw [Nat.zero_add]
    exact hfail j hj
  obtain ⟨h1, h2, h3⟩ := retry_all_fail cfg env ip cfg.max_retries 0 hfail0
  rw [tick_changed cfg env last_ip ip hres hlast, h1]
  refine ⟨rfl, ?_, ?_⟩
  · show countFetches ((cloudflare_retry cfg env ip 0 cfg.max_retries).2 ++
      [Event.sleepTick cfg.check_interval]) = cfg.max_retries
    rw [countFetches, List.countP_append]
    rw [countFetches] at h2
    rw [h2]
    simp [isFetchEv]
  · show countRetrySleeps ((cloudflare_retry cfg env ip 0 cfg.max_retries).2 ++
      [Event.sleepTick cfg.check_interval]) = _
    rw [countRetrySleeps, List.countP_append]
    rw [countRetrySleeps] at h3
    rw [h3]
    have hext : ∀ a ∈ List.range (cfg.max_retries - 1),
        (fun j => attemptRaisesB ip (env.attempts (0 + j))) a =
          (fun j => attemptRaisesB ip (env.attempts j)) a := by
      intro a _
      show attemptRaisesB ip (env.attempts (0 + a)) = attemptRaisesB ip (env.attempts a)
      rw [Nat.zero_add]
    rw [countP_ext _ _ _ hext]
    simp [isRetrySleepEv]

/-- Claim C2 counterexample: `max_retries = 2` and a provider whose fetch
succeeds with a stale record but whose update returns `success=False` on
every attempt — every attempt fails in the sense of the claim, and the
tick makes exactly the two allowed attempts (each issuing a write) and
abandons with `last_ip` unchanged, but performs *zero* `retry_delay`
sleeps, contradicting the claim that a sleep separates each pair of
consecutive attempts. -/
theorem bounded_retry_counterexample :
    attemptFailsB "203.0.113.5"
      (AttemptOutcome.fetchOk ⟨"abc", "203.0.113.4", false⟩ (.ok false)) = true ∧
    countFetches (tick ⟨"example.com", 30, 2, 5, none, []⟩
        ⟨[.resp "203.0.113.5"],
          fun _ => .fetchOk ⟨"abc", "203.0.113.4", false⟩ (.ok false),
          fun _ => .http 200⟩ none).2 = 2 ∧
    countUpdates (tick ⟨"example.com", 30, 2, 5, none, []⟩
        ⟨[.resp "203.0.113.5"],
          fun _ => .fetchOk ⟨"abc", "203.0.113.4", false⟩ (.ok false),
          fun _ => .http 200⟩ none).2 = 2 ∧
    countRetrySleeps (tick ⟨"example.com", 30, 2, 5, none, []⟩
        ⟨[.resp "203.0.113.5"],
          fun _ => .fetchOk ⟨"abc", "203.0.113.4", false⟩ (.ok false),
          fun _ => .http 200⟩ none).2 = 0 ∧
    (tick ⟨"example.com", 30, 2, 5, none, []⟩
        ⟨[.resp "203.0.113.5"],
          fun _ => .fetchOk ⟨"abc", "203.0.113.4", false⟩ (.ok false),
          fun _ => .http 200⟩ none).1 = none := by
  refine ⟨rfl, ?_, ?_, ?_, ?_⟩ <;> decide

/-- Claim C2 witness for the amended theorem: `max_retries = 3` with the
first attempt raising on fetch, the second failing with `success=False`,
the third raising on update — three fetch rounds, exactly one sleep (after
the first attempt, none after the second), state unchanged. -/
theorem bounded_retry_exhaustion_witness :
    (tick ⟨"example.com", 30, 3, 5, none, []⟩
        ⟨[.resp "203.0.113.5"],
          fun i => if i = 0 then .fetchErr
            else if i = 1 then .fetchOk ⟨"abc", "203.0.113.4", false⟩ (.ok false)
            else .fetchOk ⟨"abc", "203.0.113.4", false⟩ .exn,
          fun _ => .http 200⟩ (some "1.2.3.4")).1 = some "1.2.3.4" ∧
    countFetches (tick ⟨"example.com", 30, 3, 5, none, []⟩
        ⟨[.resp "203.0.113.5"],
          fun i => if i = 0 then .fetchErr
            else if i = 1 then .fetchOk ⟨"abc", "203.0.113.4", false⟩ (.ok false)
            else .fetchOk ⟨"abc", "203.0.113.4", false⟩ .exn,
          fun _ => .http 200⟩ (some "1.2.3.4")).2 = 3 ∧
    countRetrySleeps (tick ⟨"example.com", 30, 3, 5, none, []⟩
        ⟨[.resp "203.0.113.5"],
          fun i => if i = 0 then .fetchErr
            else if i = 1 then .fetchOk ⟨"abc", "203.0.113.4", false⟩ (.ok false)
            else .fetchOk ⟨"abc", "203.0.113.4", false⟩ .exn,
          fun _ => .http 200⟩ (some "1.2.3.4")).2 =
      (List.range 2).countP (fun j => attemptRaisesB "203.0.113.5"
        ((fun i => if i = 0 then AttemptOutcome.fetchErr
            else if i = 1 then .fetchOk ⟨"abc", "203.0.113.4", false⟩ (.ok false)
            else .fetchOk ⟨"abc", "203.0.113.4", false⟩ .exn) j)) := by
  have h := bounded_retry_exhaustion ⟨"example.com", 30, 3, 5, none, []⟩
    ⟨[.resp "203.0.113.5"],
      fun i => if i = 0 then .fetchErr
        else if i = 1 then .fetchOk ⟨"abc", "203.0.113.4", false⟩ (.ok false)
        else .fetchOk ⟨"abc", "203.0.113.4", false⟩ .exn,
      fun _ => .http 200⟩ "203.0.113.5" (some "1.2.3.4")
    rfl (by decide) (by decide)
  exact ⟨h.1, h.2.1, h.2.2⟩

/-- Claim C7 witness: a tick whose resolver raises on its only endpoint is
contained — state unchanged, one inter-tick sleep, loop continues. -/
theorem tick_error_containment_witness :
    tick ⟨"example.com", 30, 5, 5, none, []⟩
        ⟨[.err "boom"], fun _ => .fetchErr, fun _ => .exn⟩ (some "1.2.3.4") =
      (some "1.2.3.4", [Event.sleepTick 30]) :=
  (tick_error_containment ⟨"example.com", 30, 5, 5, none, []⟩
    ⟨[.err "boom"], fun _ => .fetchErr, fun _ => .exn⟩ (some "1.2.3.4")).2.1
    (some "boom") rfl

/-! ### Validator analysis (claim C4) -/

theorem not_space_of_digit (c : Char) (h : c.isDigit = true) : isPySpace c = false := by
  cases hs : isPySpace c
  · rfl
  · exfalso
    unfold isPySpace at hs
    simp only [Bool.or_eq_true, decide_eq_true_eq] at hs
    rcases hs with ((((h1 | h1) | h1) | h1) | h1) | h1 <;> subst h1 <;>
      exact absurd h (by decide)

theorem dropWhile_space_of_digits (q : List Char) (hq : q.all Char.isDigit = true) :
    q.dropWhile isPySpace = q := by
  cases q with
  | nil => rfl
  | cons c rest =>
    have hc : c.isDigit = true := by
      rw [List.all_cons, Bool.and_eq_true] at hq
      exact hq.1
    rw [List.dropWhile_cons, not_space_of_digit c hc]
    simp

theorem pyStripChars_digits (p : List Char) (hd : p.all Char.isDigit = true) :
    pyStripChars p = p := by
  unfold pyStripChars
  rw [dropWhile_space_of_digits p hd,
    dropWhile_space_of_digits p.reverse (by rwa [List.all_reverse]),
    List.reverse_reverse]

theorem pyStripChars_digits_newline (p : List Char) (hne : p ≠ [])
    (hd : p.all Char.isDigit = true) : pyStripChars (p ++ ['\n']) = p := by
  obtain ⟨c, rest, rfl⟩ : ∃ c rest, p = c :: rest := by
    cases p with
    | nil => exact absurd rfl hne
    | cons c rest => exact ⟨c, rest, rfl⟩
  have hc : c.isDigit = true := by
    rw [List.all_cons, Bool.and_eq_true] at hd
    exact hd.1
  unfold pyStripChars
  rw [List.cons_append, List.dropWhile_cons, not_space_of_digit c hc]
  simp only [Bool.false_eq_true, if_false]
  rw [← List.cons_append, List.reverse_append]
  show ((['\n'] ++ (c :: rest).reverse).dropWhile isPySpace).reverse = c :: rest
  rw [List.singleton_append, List.dropWhile_cons]
  have hnl : isPySpace '\n' = true := by decide
  rw [hnl]
  simp only [if_true]
  rw [dropWhile_space_of_digits (c :: rest).reverse (by rwa [List.all_reverse]),
    List.reverse_reverse]

theorem digitsUndTail_of_digits : ∀ q : List Char, q.all Char.isDigit = true →
    digitsUndTail q = true
  | [], _ => rfl
  | [c], h => by
    have hc : c.isDigit = true := by simpa using h
    have hne : ¬(c = '_') := by
      intro he
      subst he
      exact absurd hc (by decide)
    simp [digitsUndTail, hne, hc]
  | c :: c2 :: rest, h => by
    simp only [List.all_cons, Bool.and_eq_true] at h
    have hne : ¬(c = '_') := by
      intro he
      subst he
      exact absurd h.1 (by decide)
    have htail := digitsUndTail_of_digits (c2 :: rest)
      (by simp [List.all_cons, h.2.1, h.2.2])
    simp [digitsUndTail, hne, h.1, htail]

theorem pyDigitsUnd_of_digits (p : List Char) (hne : p ≠ [])
    (hd : p.all Char.isDigit = true) : pyDigitsUnd p = true := by
  cases p with
  | nil => exact absurd rfl hne
  | cons c rest =>
    simp only [List.all_cons, Bool.and_eq_true] at hd
    simp [pyDigitsUnd, hd.1, digitsUndTail_of_digits rest hd.2]

theorem stripUnderscores_of_digits (p : List Char) (hd : p.all Char.isDigit = true) :
    stripUnderscores p = p := by
  unfold stripUnderscores
  rw [List.filter_eq_self]
  intro a ha
  rw [List.all_eq_true] at hd
  have hda := hd a ha
  simp only [decide_eq_true_eq]
  intro he
  subst he
  exact absurd hda (by decide)

theorem pyIntCore_digits (p : List Char) (hne : p ≠ [])
    (hd : p.all Char.isDigit = true) :
    pyIntCore p = some (digitsToNat p : Int) := by
  obtain ⟨c, rest, rfl⟩ : ∃ c rest, p = c :: rest := by
    cases p with
    | nil => exact absurd rfl hne
    | cons c rest => exact ⟨c, rest, rfl⟩
  have hc : c.isDigit = true := by
    rw [List.all_cons, Bool.and_eq_true] at hd
    exact hd.1
  have hplus : ¬(c = '+') := by
    intro he
    subst he
    exact absurd hc (by decide)
  have hminus : ¬(c = '-') := by
    intro he
    subst he
    exact absurd hc (by decide)
  simp only [pyIntCore]
  rw [if_neg hplus, if_neg hminus,
    if_pos (pyDigitsUnd_of_digits (c :: rest) (by simp) hd),
    stripUnderscores_of_digits (c :: rest) hd]

theorem pyIntOfChars_digits (p : List Char) (hne : p ≠ [])
    (hd : p.all Char.isDigit = true) :
    pyIntOfChars p = some (digitsToNat p : Int) := by
  unfold pyIntOfChars
  rw [pyStripChars_digits p hd, pyIntCore_digits p hne hd]

theorem pyIntOfChars_digits_newline (p : List Char) (hne : p ≠ [])
    (hd : p.all Char.isDigit = true) :
    pyIntOfChars (p ++ ['\n']) = some (digitsToNat p : Int) := by
  unfold pyIntOfChars
  rw [pyStripChars_digits_newline p hne hd, pyIntCore_digits p hne hd]

theorem splitOnDot_ne_nil : ∀ l : List Char, splitOnDot l ≠ []
  | [] => by simp [splitOnDot]
  | c :: rest => by
    unfold splitOnDot
    by_cases hc : c = '.'
    · simp [hc]
    · rw [if_neg hc]
      cases splitOnDot rest <;> simp

theorem appendToLast_ne_nil (c : Char) : ∀ ls : List (List Char), appendToLast c ls ≠ []
  | [] => by simp [appendToLast]
  | [p] => by simp [appendToLast]
  | p :: q :: ps => by simp [appendToLast]

theorem splitOnDot_append (c : Char) (hc : ¬(c = '.')) :
    ∀ t : List Char, splitOnDot (t ++ [c]) = appendToLast c (splitOnDot t)
  | [] => by
    simp [splitOnDot, appendToLast, hc]
  | x :: t => by
    rw [List.cons_append]
    unfold splitOnDot
    by_cases hx : x = '.'
    · rw [if_pos hx, if_pos hx, splitOnDot_append c hc t]
      cases hs : splitOnDot t with
      | nil => exact absurd hs (splitOnDot_ne_nil t)
      | cons p ps => rfl
    · rw [if_neg hx, if_neg hx, splitOnDot_append c hc t]
      cases hs : splitOnDot t with
      | nil => exact absurd hs (splitOnDot_ne_nil t)
      | cons p ps =>
        cases ps with
        | nil => rfl
        | cons q qs => rfl

theorem octetShape_fields (p : List Char) (h : octetShape p = true) :
    p ≠ [] ∧ p.all Char.isDigit = true := by
  unfold octetShape at h
  simp only [Bool.and_eq_true] at h
  refine ⟨?_, h.2⟩
  intro he
  subst he
  simp at h

theorem octetShape_append_nl (p : List Char) : octetShape (p ++ ['\n']) = false := by
  unfold octetShape
  have hnl : ('\n').isDigit = false := by decide
  simp [List.all_append, hnl]

theorem reIpShapeCore_append_nl (t : List Char) :
    reIpShapeCore (t ++ ['\n']) = false := by
  unfold reIpShapeCore
  rw [splitOnDot_append '\n' (by decide) t]
  cases hs : splitOnDot t with
  | nil => exact absurd hs (splitOnDot_ne_nil t)
  | cons p ps =>
    rcases ps with _ | ⟨q, _ | ⟨r3, _ | ⟨r4, _ | ⟨r5, rest⟩⟩⟩⟩
    · rfl
    · rfl
    · rfl
    · show (octetShape p && octetShape q && octetShape r3 &&
        octetShape (r4 ++ ['\n'])) = false
      rw [octetShape_append_nl]
      simp
    · simp only [appendToLast]
      cases hal : appendToLast '\n' (r5 :: rest) with
      | nil => exact absurd hal (appendToLast_ne_nil '\n' (r5 :: rest))
      | cons u us => rfl

theorem spec_core_imp_shape (l : List Char) (h : spec_public_ipv4_core l = true) :
    reIpShapeCore l = true := by
  unfold spec_public_ipv4_core at h
  unfold reIpShapeCore
  cases hs : splitOnDot l with
  | nil => exact absurd hs (splitOnDot_ne_nil l)
  | cons p ps =>
    rw [hs] at h
    rcases ps with _ | ⟨q, _ | ⟨r3, _ | ⟨r4, _ | ⟨r5, rest⟩⟩⟩⟩
    · exact absurd h (by simp)
    · exact absurd h (by simp)
    · exact absurd h (by simp)
    · show (octetShape p && octetShape q && octetShape r3 && octetShape r4) = true
      simp only [specOctet, Bool.and_eq_true] at h
      simp [h.1.1.1.1.1, h.1.1.1.2.1, h.1.1.2.1, h.1.2.1]
    · exact absurd h (by simp)

theorem spec_core_of_shape_false (l : List Char) (h : reIpShapeCore l = false) :
    spec_public_ipv4_core l = false := by
  cases hspec : spec_public_ipv4_core l
  · rfl
  · rw [spec_core_imp_shape l hspec] at h
    exact absurd h (by simp)

theorem shape_parts (t : List Char) (h : reIpShapeCore t = true) :
    ∃ a b c d, splitOnDot t = [a, b, c, d] ∧ octetShape a = true ∧
      octetShape b = true ∧ octetShape c = true ∧ octetShape d = true := by
  unfold reIpShapeCore at h
  cases hs : splitOnDot t with
  | nil => exact absurd hs (splitOnDot_ne_nil t)
  | cons p ps =>
    rw [hs] at h
    rcases ps with _ | ⟨q, _ | ⟨r3, _ | ⟨r4, _ | ⟨r5, rest⟩⟩⟩⟩
    · exact absurd h (by simp)
    · exact absurd h (by simp)
    · exact absurd h (by simp)
    · have h4 : (octetShape p && octetShape q && octetShape r3 && octetShape r4) = true := h
      simp only [Bool.and_eq_true] at h4
      exact ⟨p, q, r3, r4, rfl, h4.1.1.1, h4.1.1.2, h4.1.2, h4.2⟩
    · exact absurd h (by simp)

theorem nat_cast_range_eval (n : Nat) :
    (decide ((n : Int) < 0) || decide (255 < (n : Int))) = !decide (n ≤ 255) := by
  by_cases hn : n ≤ 255
  · have h1 : ¬((n : Int) < 0) := by omega
    have h2 : ¬((255 : Int) < n) := by omega
    simp [h1, h2, hn]
  · have h2 : (255 : Int) < n := by omega
    simp [h2, hn]

theorem range_private_eval (na nb nc nd : Nat) :
    (if ([(na : Int), nb, nc, nd].any fun o => decide (o < 0) || decide (255 < o))
      then false
      else !privateOrLoopback na nb) =
    ((decide (na ≤ 255) && decide (nb ≤ 255) && decide (nc ≤ 255) &&
      decide (nd ≤ 255)) && !privateOrLoopback na nb) := by
  simp only [List.any_cons, List.any_nil, Bool.or_false]
  rw [nat_cast_range_eval na, nat_cast_range_eval nb, nat_cast_range_eval nc,
    nat_cast_range_eval nd]
  generalize decide (na ≤ 255) = d1
  generalize decide (nb ≤ 255) = d2
  generalize decide (nc ≤ 255) = d3
  generalize decide (nd ≤ 255) = d4
  generalize privateOrLoopback (na : Int) (nb : Int) = K
  cases d1 <;> cases d2 <;> cases d3 <;> cases d4 <;> simp

theorem pyIntList_four (a b c d : List Char) (na nb nc nd : Int)
    (hA : pyIntOfChars a = some na) (hB : pyIntOfChars b = some nb)
    (hC : pyIntOfChars c = some nc) (hD : pyIntOfChars d = some nd) :
    pyIntList [a, b, c, d] = some [na, nb, nc, nd] := by
  simp only [pyIntList, hA, hB, hC, hD]

theorem after_regex_eval (l : List Char) (a b c d : List Char) (na nb nc nd : Nat)
    (hs : splitOnDot l = [a, b, c, d])
    (hA : pyIntOfChars a = some (na : Int)) (hB : pyIntOfChars b = some (nb : Int))
    (hC : pyIntOfChars c = some (nc : Int)) (hD : pyIntOfChars d = some (nd : Int)) :
    ipv4_after_regex l =
      ((decide (na ≤ 255) && decide (nb ≤ 255) && decide (nc ≤ 255) &&
        decide (nd ≤ 255)) && !privateOrLoopback na nb) := by
  unfold ipv4_after_regex
  rw [hs, pyIntList_four a b c d na nb nc nd hA hB hC hD]
  exact range_private_eval na nb nc nd

theorem spec_core_eval (t : List Char) (a b c d : List Char)
    (hs : splitOnDot t = [a, b, c, d])
    (ha : octetShape a = true) (hb : octetShape b = true)
    (hc : octetShape c = true) (hd : octetShape d = true) :
    spec_public_ipv4_core t =
      ((decide (digitsToNat a ≤ 255) && decide (digitsToNat b ≤ 255) &&
        decide (digitsToNat c ≤ 255) && decide (digitsToNat d ≤ 255)) &&
        !privateOrLoopback (digitsToNat a) (digitsToNat b)) := by
  simp only [spec_public_ipv4_core, hs, specOctet]
  rw [ha, hb, hc, hd]
  simp only [Bool.true_and]

theorem valid_chars_core_true (t : List Char) (hcore : reIpShapeCore t = true) :
    ipv4_after_regex t = spec_public_ipv4_core t := by
  obtain ⟨a, b, c, d, hs, ha, hb, hc, hd⟩ := shape_parts t hcore
  obtain ⟨hane, hadig⟩ := octetShape_fields a ha
  obtain ⟨hbne, hbdig⟩ := octetShape_fields b hb
  obtain ⟨hcne, hcdig⟩ := octetShape_fields c hc
  obtain ⟨hdne, hddig⟩ := octetShape_fields d hd
  rw [after_regex_eval t a b c d (digitsToNat a) (digitsToNat b) (digitsToNat c)
      (digitsToNat d) hs (pyIntOfChars_digits a hane hadig)
      (pyIntOfChars_digits b hbne hbdig) (pyIntOfChars_digits c hcne hcdig)
      (pyIntOfChars_digits d hdne hddig),
    spec_core_eval t a b c d hs ha hb hc hd]

theorem valid_chars_core_true_newline (t : List Char) (hcore : reIpShapeCore t = true) :
    ipv4_after_regex (t ++ ['\n']) = spec_public_ipv4_core t := by
  obtain ⟨a, b, c, d, hs, ha, hb, hc, hd⟩ := shape_parts t hcore
  obtain ⟨hane, hadig⟩ := octetShape_fields a ha
  obtain ⟨hbne, hbdig⟩ := octetShape_fields b hb
  obtain ⟨hcne, hcdig⟩ := octetShape_fields c hc
  obtain ⟨hdne, hddig⟩ := octetShape_fields d hd
  have hs2 : splitOnDot (t ++ ['\n']) = [a, b, c, d ++ ['\n']] := by
    rw [splitOnDot_append '\n' (by decide) t, hs]
    rfl
  rw [after_regex_eval (t ++ ['\n']) a b c (d ++ ['\n']) (digitsToNat a)
      (digitsToNat b) (digitsToNat c) (digitsToNat d) hs2
      (pyIntOfChars_digits a hane hadig) (pyIntOfChars_digits b hbne hbdig)
      (pyIntOfChars_digits c hcne hcdig) (pyIntOfChars_digits_newline d hdne hddig),
    spec_core_eval t a b c d hs ha hb hc hd]

theorem validator_chars (l : List Char) :
    is_valid_public_ipv4_chars l =
      (spec_public_ipv4_core l ||
        match l.getLast? with
        | some c => c = '\n' && spec_public_ipv4_core l.dropLast
        | none => false) := by
  cases hlast : l.getLast? with
  | none =>
    have hnil : l = [] := List.getLast?_eq_none_iff.mp hlast
    subst hnil
    rfl
  | some c =>
    by_cases hc : c = '\n'
    · subst hc
      have hne : l ≠ [] := by
        intro he
        subst he
        exact Option.noConfusion hlast
      have hl : l.dropLast ++ ['\n'] = l := by
        have hdg := List.dropLast_append_getLast hne
        rw [List.getLast?_eq_getLast_of_ne_nil hne] at hlast
        injection hlast with h2
        rw [h2] at hdg
        exact hdg
      obtain ⟨t, rfl⟩ : ∃ t, l = t ++ ['\n'] := ⟨l.dropLast, hl.symm⟩
      have hcoreL := reIpShapeCore_append_nl t
      rw [List.dropLast_concat, spec_core_of_shape_false _ hcoreL, Bool.false_or]
      unfold is_valid_public_ipv4_chars reIpShape
      rw [hcoreL, List.getLast?_concat, List.dropLast_concat]
      simp only [Bool.false_or, decide_True, Bool.true_and]
      cases hcore : reIpShapeCore t with
      | false =>
        rw [spec_core_of_shape_false t hcore]
        rfl
      | true =>
        simp only [Bool.not_true, Bool.false_eq_true, if_false]
        exact valid_chars_core_true_newline t hcore
    · have hrei : reIpShape l = reIpShapeCore l := by
        unfold reIpShape
        rw [hlast]
        simp [hc]
      unfold is_valid_public_ipv4_chars
      rw [hrei]
      simp only [hc, decide_False, Bool.false_and, Bool.or_false]
      cases hcore : reIpShapeCore l with
      | false =>
        rw [spec_core_of_shape_false l hcore]
        rfl
      | true =>
        simp only [Bool.not_true, Bool.false_eq_true, if_false]
        exact valid_chars_core_true l hcore

/-- Claim C4 counterexample: the string `"8.8.8.8\n"` — malformed as a
dotted quad (it carries a trailing newline) — is nevertheless accepted by
`is_valid_public_ipv4`, because Python's `$` matches before a final
newline and `int("8\n")` succeeds; the claimed characterisation
`spec_public_ipv4` rejects it. -/
theorem validator_iff_counterexample :
    is_valid_public_ipv4 "8.8.8.8\n" = true ∧
    spec_public_ipv4 "8.8.8.8\n" = false := by
  constructor <;> decide

/-- Claim C4 (amended) — validator correctness up to one trailing newline:
for every string, `is_valid_public_ipv4` returns true if and only if the
string — after discarding at most one trailing newline — consists of four
dot-separated groups of one to three digits, each with value in [0, 255],
and the address lies outside 10.0.0.0/8, 127.0.0.0/8, 172.16.0.0/12 and
192.168.0.0/16; every other string yields false. -/
theorem validator_iff_amended (ip : String) :
    is_valid_public_ipv4 ip = spec_public_ipv4_nl ip :=
  validator_chars ip.data

end ChangeIp
